import Mathlib

/-!
Shallow embedding of the g-chat backend's rate-limiting / token-accounting
layer and its streaming chat orchestrator, with proofs of the specification
claims about them.

Source files embedded:
* `src/backend/app/utils/rate_limiter.py` (usage throttle)
* `src/backend/app/threads/thread_service.py` (persistence)
* `src/backend/app/chat/chat_service.py` (streaming orchestrator)
* `src/backend/app/api/routes/chat.py` (chat route)

Timestamps (`time.time()`) are modelled as `Int` seconds; the tokenizer
(`count_tokens`, which delegates to the external tiktoken library) is an
explicit function parameter `tokenize : String → Nat`, matching the spec's
treatment of the tokenizer as an external interface.
-/

namespace GChat

/-- The process-wide `usage_tracking` dictionary of `rate_limiter.py`:
`{"last_reset": time.time(), "tokens_used": 0, "requests_used": 0}`. -/
structure UsageTracking where
  last_reset : Int
  tokens_used : Nat
  requests_used : Nat
deriving Repr, DecidableEq

/-- `check_and_reset_counters` (rate_limiter.py lines 21-43): if
`current_time - last_reset > 60`, replace the tracking state with a fresh
one (`last_reset = current_time`, both counters zero); otherwise leave it. -/
def check_and_reset_counters (now : Int) (s : UsageTracking) : UsageTracking :=
  if now - s.last_reset > 60 then
    { last_reset := now, tokens_used := 0, requests_used := 0 }
  else s

/-- The payload of `RateLimitError(limit_type, limit)` from
`app/utils/errors.py`. -/
structure RateLimitError where
  limit_type : String
  limit : Nat
deriving Repr, DecidableEq

/-- `track_request` (rate_limiter.py lines 106-132): reset check, then if
`requests_used >= REQUESTS_PER_MINUTE` raise `RateLimitError("Request", limit)`
without mutating state, else increment `requests_used`.  The raised error is
modelled as `Except.error`; the global state after the call is returned in
the second component (on the raising path it is the post-reset-check state,
untouched by the operation itself). -/
def track_request (REQUESTS_PER_MINUTE : Nat) (now : Int) (s : UsageTracking) :
    Except RateLimitError Unit × UsageTracking :=
  if (check_and_reset_counters now s).requests_used ≥ REQUESTS_PER_MINUTE then
    (Except.error ⟨"Request", REQUESTS_PER_MINUTE⟩, check_and_reset_counters now s)
  else
    (Except.ok (), { check_and_reset_counters now s with
      requests_used := (check_and_reset_counters now s).requests_used + 1 })

/-- `check_token_rate_limit` (rate_limiter.py lines 71-103): reset check,
then if `tokens_used + token_count > TOKENS_PER_MINUTE` return `False`
without mutating state, else add `token_count` to `tokens_used` and return
`True`. -/
def check_token_rate_limit (TOKENS_PER_MINUTE : Nat) (now : Int)
    (token_count : Nat) (s : UsageTracking) : Bool × UsageTracking :=
  if (check_and_reset_counters now s).tokens_used + token_count > TOKENS_PER_MINUTE then
    (false, check_and_reset_counters now s)
  else
    (true, { check_and_reset_counters now s with
      tokens_used := (check_and_reset_counters now s).tokens_used + token_count })

/-- One budget block of the dict returned by `get_rate_limit_status`. -/
structure BudgetStatus where
  limit : Nat
  used : Nat
  remaining : Int
  reset_after_seconds : Int
deriving Repr, DecidableEq

/-- The dict returned by `get_rate_limit_status`. -/
structure RateLimitStatus where
  requests : BudgetStatus
  tokens : BudgetStatus
deriving Repr, DecidableEq

/-- `get_rate_limit_status` (rate_limiter.py lines 135-166): reset check,
then a read-only snapshot.  Note the code floors `remaining` at zero for the
requests budget (`max(0, ...)`) but computes the tokens `remaining` as a bare
difference `TOKENS_PER_MINUTE - tokens_used`, which is embedded here exactly
as written (as an `Int` subtraction).  `int(time_until_reset)` truncation is
the identity on our integer time model. -/
def get_rate_limit_status (REQUESTS_PER_MINUTE TOKENS_PER_MINUTE : Nat)
    (now : Int) (s : UsageTracking) : RateLimitStatus × UsageTracking :=
  let s := check_and_reset_counters now s
  let time_until_reset : Int := max 0 (60 - (now - s.last_reset))
  let remaining_requests : Int := max 0 ((REQUESTS_PER_MINUTE : Int) - s.requests_used)
  ({ requests :=
      { limit := REQUESTS_PER_MINUTE
        used := s.requests_used
        remaining := remaining_requests
        reset_after_seconds := time_until_reset }
     tokens :=
      { limit := TOKENS_PER_MINUTE
        used := s.tokens_used
        remaining := (TOKENS_PER_MINUTE : Int) - s.tokens_used
        reset_after_seconds := time_until_reset } }, s)

/-- One call against the usage throttle, for reasoning about call
sequences. -/
inductive ThrottleOp where
  | admitRequest
  | admitTokens (count : Nat)
  | status
deriving Repr, DecidableEq

/-- State transition of a single throttle call (the state component of the
corresponding rate_limiter.py function). -/
def throttle_step (REQUESTS_PER_MINUTE TOKENS_PER_MINUTE : Nat) (now : Int)
    (op : ThrottleOp) (s : UsageTracking) : UsageTracking :=
  match op with
  | .admitRequest => (track_request REQUESTS_PER_MINUTE now s).2
  | .admitTokens c => (check_token_rate_limit TOKENS_PER_MINUTE now c s).2
  | .status => (get_rate_limit_status REQUESTS_PER_MINUTE TOKENS_PER_MINUTE now s).2

/-- Fold a timestamped sequence of throttle calls over the state. -/
def throttle_run (REQUESTS_PER_MINUTE TOKENS_PER_MINUTE : Nat) :
    UsageTracking → List (Int × ThrottleOp) → UsageTracking
  | s, [] => s
  | s, (now, op) :: rest =>
      throttle_run REQUESTS_PER_MINUTE TOKENS_PER_MINUTE
        (throttle_step REQUESTS_PER_MINUTE TOKENS_PER_MINUTE now op s) rest

/-- States of the `usage_tracking` global reachable from process start
(`{last_reset: now, tokens_used: 0, requests_used: 0}`) through the three
throttle operations. -/
inductive Reachable (REQUESTS_PER_MINUTE TOKENS_PER_MINUTE : Nat) :
    UsageTracking → Prop where
  | init (t0 : Int) :
      Reachable REQUESTS_PER_MINUTE TOKENS_PER_MINUTE
        { last_reset := t0, tokens_used := 0, requests_used := 0 }
  | step (now : Int) (op : ThrottleOp) {s : UsageTracking}
      (h : Reachable REQUESTS_PER_MINUTE TOKENS_PER_MINUTE s) :
      Reachable REQUESTS_PER_MINUTE TOKENS_PER_MINUTE
        (throttle_step REQUESTS_PER_MINUTE TOKENS_PER_MINUTE now op s)

/-! ## Persistence layer (`thread_service.py`, `models/chat.py`) -/

/-- A row of the `conversations` table (`models/chat.py` `Conversation`),
restricted to the fields the claims are about.  `created_at` ordering is
modelled by position in the `DB.conversations` list: rows are appended in
creation order. -/
structure Conversation where
  thread_id : Nat
  role : String
  content : String
  model : Option String
  token_count : Nat
deriving Repr, DecidableEq

/-- A row of the `threads` table, restricted to the fields the claims use. -/
structure Thread where
  id : Nat
  owner_id : Nat
  updated_at : Int
deriving Repr, DecidableEq

/-- The relational store visible to the embedded code paths. -/
structure DB where
  threads : List Thread
  conversations : List Conversation
deriving Repr, DecidableEq

/-- `get_thread` (thread_service.py lines 34-45): look the thread up by id. -/
def get_thread (db : DB) (thread_id : Nat) : Option Thread :=
  db.threads.find? fun t => t.id == thread_id

/-- A message dict passed to `add_messages_to_thread` (`user_message` /
`assistant_response`): `content`, optional `"model"` key, optional
`"token_count"` key. -/
structure MessageIn where
  content : String
  model : Option String
  token_count : Option Nat
deriving Repr, DecidableEq

/-- `msg.get("token_count") or count_tokens(msg["content"])`
(thread_service.py lines 180-181 and 194-195): Python's `or` falls through
to recomputing the count when the stored value is `None` or `0` (falsy). -/
def effective_token_count (tokenize : String → Nat) (m : MessageIn) : Nat :=
  match m.token_count with
  | some n => if n = 0 then tokenize m.content else n
  | none => tokenize m.content

/-- `add_messages_to_thread` (thread_service.py lines 156-212): if the thread
does not exist, return `False` and change nothing; otherwise append the user
turn (role `"user"`, `model=None`) and/or the assistant turn (role
`"model"`) and bump the thread's `updated_at`, returning `True`. -/
def add_messages_to_thread (tokenize : String → Nat) (db : DB) (thread_id : Nat)
    (user_message assistant_response : Option MessageIn) (now : Int) :
    Bool × DB :=
  match get_thread db thread_id with
  | none => (false, db)
  | some _ =>
    let convs₁ :=
      match user_message with
      | some m => db.conversations ++
          [⟨thread_id, "user", m.content, none, effective_token_count tokenize m⟩]
      | none => db.conversations
    let convs₂ :=
      match assistant_response with
      | some m => convs₁ ++
          [⟨thread_id, "model", m.content, m.model, effective_token_count tokenize m⟩]
      | none => convs₁
    (true,
     { threads := db.threads.map fun t =>
         if t.id == thread_id then { t with updated_at := now } else t
       conversations := convs₂ })

/-! ## Streaming chat orchestrator (`chat_service.py`) -/

/-- One server-sent event yielded by `stream_response`: either a content
event (`data: {"content": ...}`) or the terminal `data: [DONE]` marker. -/
inductive SSEEvent where
  | content (text : String)
  | done
deriving Repr, DecidableEq

/-- The fixed truncation notice of chat_service.py line 88. -/
def truncation_notice : String := "⚠️ Token rate limit exceeded. Response truncated."

/-- The error fragment text of chat_service.py line 114. -/
def error_content (msg : String) : String := "⚠️ Error: " ++ msg

/-- The external model stream (`chat.send_message_stream(question)`): a lazy
finite sequence of chunk texts, each pulled at some timestamp, which either
finishes normally or raises after yielding its chunks (`raises [] msg`
models a call that raises before the first chunk).  A chunk with empty text
models a chunk failing the `hasattr(chunk, "text") and chunk.text` guard. -/
inductive StreamSource where
  | yields (chunks : List (Int × String))
  | raises (chunks : List (Int × String)) (msg : String)
deriving Repr, DecidableEq

/-- The `for chunk in response` loop of `stream_response` (chat_service.py
lines 80-94): append the chunk text to the accumulator, admit its tokens,
then either forward it or yield the truncation notice plus the sentinel and
return early.  Result: (events yielded by the loop, accumulated text,
throttle state, whether the loop returned early on truncation). -/
def stream_loop (tokenize : String → Nat) (TPM : Nat) :
    List (Int × String) → String → UsageTracking →
    List SSEEvent × String × UsageTracking × Bool
  | [], acc, u => ([], acc, u, false)
  | (t, text) :: rest, acc, u =>
    if text = "" then stream_loop tokenize TPM rest acc u
    else
      if (check_token_rate_limit TPM t (tokenize text) u).1 then
        let res := stream_loop tokenize TPM rest (acc ++ text)
          (check_token_rate_limit TPM t (tokenize text) u).2
        (SSEEvent.content text :: res.1, res.2)
      else
        ([SSEEvent.content truncation_notice, SSEEvent.done], acc ++ text,
         (check_token_rate_limit TPM t (tokenize text) u).2, true)

/-- `stream_response` (chat_service.py lines 73-116): run the chunk loop; on
truncation the generator returns at once (no persistence, no further
events); on normal exhaustion persist the accumulated text as one
model-role turn and yield the sentinel; if the external call raises (before
or during iteration) yield a single error fragment and the sentinel and
persist nothing.  Returns (events, final database, final throttle state);
`persist_time` is the timestamp of the `updated_at` bump. -/
def stream_response (tokenize : String → Nat) (TPM : Nat) (source : StreamSource)
    (thread_id : Nat) (model : String) (db : DB) (u : UsageTracking)
    (persist_time : Int) : List SSEEvent × DB × UsageTracking :=
  match source with
  | .yields chunks =>
    let res := stream_loop tokenize TPM chunks "" u
    if res.2.2.2 then (res.1, db, res.2.2.1)
    else
      (res.1 ++ [SSEEvent.done],
       (add_messages_to_thread tokenize db thread_id none
         (some ⟨res.2.1, some model, some (tokenize res.2.1)⟩) persist_time).2,
       res.2.2.1)
  | .raises chunks msg =>
    let res := stream_loop tokenize TPM chunks "" u
    if res.2.2.2 then (res.1, db, res.2.2.1)
    else
      (res.1 ++ [SSEEvent.content (error_content msg), SSEEvent.done], db,
       res.2.2.1)

/-- JSON string escaping as performed by `json.dumps` on the content value.
Whatever the escapes produce, the encoder's output sits strictly between the
fixed opening brace of the object literal and its closing brace, which is
all the sentinel-distinctness claim depends on. -/
def json_escape_char (c : Char) : String :=
  if c = '"' then "\\\""
  else if c = '\\' then "\\\\"
  else if c = '\n' then "\\n"
  else if c = '\r' then "\\r"
  else if c = '\t' then "\\t"
  else String.singleton c

/-- Escape every character of a content string. -/
def json_escape (s : String) : String :=
  String.join (s.data.map json_escape_char)

/-- `json.dumps` applied to the single-key content object. -/
def json_dumps_content (text : String) : String :=
  "\x7b\"content\": \"" ++ json_escape text ++ "\"\x7d"

/-- The SSE wire frame of one event (chat_service.py lines 88-93, 110,
114-115): content events are framed as a `data:` line carrying the JSON
object; the terminal marker is the fixed `data: [DONE]` line. -/
def sse_frame : SSEEvent → String
  | .content text => "data: " ++ json_dumps_content text ++ "\n\n"
  | .done => "data: [DONE]\n\n"

/-- The concatenation of a list of fragments in arrival order. -/
def concat_texts : List String → String
  | [] => ""
  | t :: rest => t ++ concat_texts rest

/-! ## Chat route (`api/routes/chat.py`) -/

/-- A history entry in the format built by `get_thread_messages_optimized`:
`{"role": ..., "parts": [{"text": ...}]}`. -/
structure HistoryMsg where
  role : String
  text : String
deriving Repr, DecidableEq

/-- `get_thread_messages_optimized` (thread_service.py lines 129-153): the
thread's conversations in `created_at` order, projected to role and
content.  A missing thread simply yields the empty list. -/
def get_thread_messages_optimized (db : DB) (thread_id : Nat) :
    List HistoryMsg :=
  (db.conversations.filter fun c => c.thread_id == thread_id).map
    fun c => ⟨c.role, c.content⟩

/-- Externally observable steps of `chat_with_thread`, in program order. -/
inductive RouteEvent where
  | historyFetched (msgs : List HistoryMsg)
  | historyFetchFailed
  | userTurnPersist (ok : Bool)
  | modelCallIssued (model : String) (history : List HistoryMsg) (question : String)
deriving Repr, DecidableEq

/-- What the route returns to the HTTP layer. -/
inductive RouteOutcome where
  | streaming
  | httpError (status : Nat) (detail : String)
deriving Repr, DecidableEq

/-- `chat_with_thread` (api/routes/chat.py lines 26-84) up to the point
where the `StreamingResponse` is returned: fetch the thread history inside a
`try` whose handler swallows every exception and leaves the history empty;
persist the user turn (the `False`-on-missing-thread return value is
ignored); then issue the streaming model call via `process_chat_request`.
The route performs no thread-existence or ownership check of its own.
`history_fetch_raises` models `get_thread_messages_optimized` raising. -/
def chat_with_thread (tokenize : String → Nat) (db : DB) (thread_id : Nat)
    (question model : String) (history_fetch_raises : Bool) (now : Int) :
    RouteOutcome × DB × List RouteEvent :=
  let fetched :=
    if history_fetch_raises then
      ([RouteEvent.historyFetchFailed], ([] : List HistoryMsg))
    else
      ([RouteEvent.historyFetched (get_thread_messages_optimized db thread_id)],
       get_thread_messages_optimized db thread_id)
  let persisted := add_messages_to_thread tokenize db thread_id
    (some ⟨question, none, some (tokenize question)⟩) none now
  (RouteOutcome.streaming, persisted.2,
   fetched.1 ++ [RouteEvent.userTurnPersist persisted.1,
                 RouteEvent.modelCallIssued model fetched.2 question])

/-! ## Claim theorems and helper lemmas -/

/-- The state returned by `get_rate_limit_status` is exactly the
post-reset-check state. -/
theorem get_rate_limit_status_snd (RPM TPM : Nat) (now : Int) (s : UsageTracking) :
    (get_rate_limit_status RPM TPM now s).2 = check_and_reset_counters now s := rfl

/-- Counters never exceed their limits in any reachable throttle state:
`track_request` increments only below the request limit, and
`check_token_rate_limit` increments only when the new total stays within the
token limit. -/
theorem reachable_counters_le
    (RPM TPM : Nat) (s : UsageTracking) (h : Reachable RPM TPM s) :
    s.requests_used ≤ RPM ∧ s.tokens_used ≤ TPM := by
  induction h with
  | init t0 => exact ⟨Nat.zero_le _, Nat.zero_le _⟩
  | step now op h ih =>
    rcases ih with ⟨hr, ht⟩
    have hreset : ∀ s', s'.requests_used ≤ RPM → s'.tokens_used ≤ TPM →
        (check_and_reset_counters now s').requests_used ≤ RPM ∧
        (check_and_reset_counters now s').tokens_used ≤ TPM := by
      intro s' h1 h2
      unfold check_and_reset_counters
      split
      · exact ⟨Nat.zero_le _, Nat.zero_le _⟩
      · exact ⟨h1, h2⟩
    cases op with
    | admitRequest =>
      have hres := hreset _ hr ht
      simp only [throttle_step, track_request]
      split
      · exact hres
      · rename_i hlt
        push_neg at hlt
        exact ⟨hlt, hres.2⟩
    | admitTokens c =>
      have hres := hreset _ hr ht
      simp only [throttle_step, check_token_rate_limit]
      split
      · exact hres
      · rename_i hle
        push_neg at hle
        exact ⟨hres.1, hle⟩
    | status =>
      simp only [throttle_step, get_rate_limit_status_snd]
      exact hreset _ hr ht

/-- Unfolded form of `get_rate_limit_status`. -/
theorem get_rate_limit_status_eq (RPM TPM : Nat) (now : Int) (s : UsageTracking) :
    get_rate_limit_status RPM TPM now s =
      ({ requests :=
          { limit := RPM
            used := (check_and_reset_counters now s).requests_used
            remaining := max 0 ((RPM : Int) - (check_and_reset_counters now s).requests_used)
            reset_after_seconds :=
              max 0 (60 - (now - (check_and_reset_counters now s).last_reset)) }
         tokens :=
          { limit := TPM
            used := (check_and_reset_counters now s).tokens_used
            remaining := (TPM : Int) - (check_and_reset_counters now s).tokens_used
            reset_after_seconds :=
              max 0 (60 - (now - (check_and_reset_counters now s).last_reset)) } },
       check_and_reset_counters now s) := rfl

/-- A single throttle call's state transition depends on the prior state only
through the reset check. -/
theorem throttle_step_congr (RPM TPM : Nat) (now : Int) (op : ThrottleOp)
    (s₁ s₂ : UsageTracking)
    (h : check_and_reset_counters now s₁ = check_and_reset_counters now s₂) :
    throttle_step RPM TPM now op s₁ = throttle_step RPM TPM now op s₂ := by
  cases op <;>
    simp only [throttle_step, track_request, check_token_rate_limit,
      get_rate_limit_status, h]

/-- An expired window is replaced by a fresh one by the reset check. -/
theorem check_and_reset_expired (now : Int) (s : UsageTracking)
    (h : now - s.last_reset > 60) :
    check_and_reset_counters now s =
      { last_reset := now, tokens_used := 0, requests_used := 0 } := by
  simp [check_and_reset_counters, h]

/-- C3: For every (reachable) window state, `get_rate_limit_status` returns,
for both the requests budget and the tokens budget,
`remaining = max(0, limit - used)` — in particular never negative — and
`resetAfterSeconds = max(0, 60 - (now - windowStart))` (with `windowStart`
the window start after the reset check).  The tokens `remaining` is computed
in the code as a bare difference, but the reachability invariant
`tokens_used ≤ TOKENS_PER_MINUTE` makes it equal to the floored form. -/
theorem claim_C3_status_remaining_floored
    (RPM TPM : Nat) (now : Int) (s : UsageTracking)
    (h : Reachable RPM TPM s) :
    (get_rate_limit_status RPM TPM now s).1.requests.remaining =
      max 0 ((RPM : Int) - (get_rate_limit_status RPM TPM now s).1.requests.used) ∧
    (get_rate_limit_status RPM TPM now s).1.tokens.remaining =
      max 0 ((TPM : Int) - (get_rate_limit_status RPM TPM now s).1.tokens.used) ∧
    0 ≤ (get_rate_limit_status RPM TPM now s).1.requests.remaining ∧
    0 ≤ (get_rate_limit_status RPM TPM now s).1.tokens.remaining ∧
    (get_rate_limit_status RPM TPM now s).1.requests.reset_after_seconds =
      max 0 (60 - (now - (get_rate_limit_status RPM TPM now s).2.last_reset)) ∧
    (get_rate_limit_status RPM TPM now s).1.tokens.reset_after_seconds =
      max 0 (60 - (now - (get_rate_limit_status RPM TPM now s).2.last_reset)) := by
  have hreach : Reachable RPM TPM (check_and_reset_counters now s) := by
    have hstep := Reachable.step now .status h
    simpa only [throttle_step, get_rate_limit_status_snd] using hstep
  have hle := reachable_counters_le RPM TPM _ hreach
  have htok : ((check_and_reset_counters now s).tokens_used : Int) ≤ (TPM : Int) := by
    exact_mod_cast hle.2
  rw [get_rate_limit_status_eq]
  dsimp only
  exact ⟨rfl, (max_eq_right (by omega)).symm, le_max_left _ _, by omega, rfl, rfl⟩

/-- Witness for C3 at a concrete reachable state: fresh window at time 0,
queried at time 10 with limits 60 and 60000. -/
theorem claim_C3_status_remaining_floored_witness :
    (get_rate_limit_status 60 60000 10
        { last_reset := 0, tokens_used := 0, requests_used := 0 }).1.requests.remaining =
      max 0 ((60 : Int) - (get_rate_limit_status 60 60000 10
        { last_reset := 0, tokens_used := 0, requests_used := 0 }).1.requests.used) ∧
    (get_rate_limit_status 60 60000 10
        { last_reset := 0, tokens_used := 0, requests_used := 0 }).1.tokens.remaining =
      max 0 ((60000 : Int) - (get_rate_limit_status 60 60000 10
        { last_reset := 0, tokens_used := 0, requests_used := 0 }).1.tokens.used) ∧
    0 ≤ (get_rate_limit_status 60 60000 10
        { last_reset := 0, tokens_used := 0, requests_used := 0 }).1.requests.remaining ∧
    0 ≤ (get_rate_limit_status 60 60000 10
        { last_reset := 0, tokens_used := 0, requests_used := 0 }).1.tokens.remaining ∧
    (get_rate_limit_status 60 60000 10
        { last_reset := 0, tokens_used := 0, requests_used := 0 }).1.requests.reset_after_seconds =
      max 0 (60 - (10 - (get_rate_limit_status 60 60000 10
        { last_reset := 0, tokens_used := 0, requests_used := 0 }).2.last_reset)) ∧
    (get_rate_limit_status 60 60000 10
        { last_reset := 0, tokens_used := 0, requests_used := 0 }).1.tokens.reset_after_seconds =
      max 0 (60 - (10 - (get_rate_limit_status 60 60000 10
        { last_reset := 0, tokens_used := 0, requests_used := 0 }).2.last_reset)) :=
  claim_C3_status_remaining_floored 60 60000 10 _ (Reachable.init 0)

/-- C4: after the reset check, `track_request` raises
`RateLimitError("Request", limit)` and leaves the state untouched when
`requests_used ≥ REQUESTS_PER_MINUTE`, and otherwise increments
`requests_used` by exactly one and succeeds; `check_token_rate_limit`
returns `false` and leaves the state untouched when
`tokens_used + count > TOKENS_PER_MINUTE`, and otherwise adds exactly
`count` to `tokens_used` and returns `true`. -/
theorem claim_C4_admission_semantics
    (RPM TPM count : Nat) (now : Int) (s : UsageTracking) :
    ((check_and_reset_counters now s).requests_used ≥ RPM →
      track_request RPM now s =
        (Except.error ⟨"Request", RPM⟩, check_and_reset_counters now s)) ∧
    ((check_and_reset_counters now s).requests_used < RPM →
      track_request RPM now s =
        (Except.ok (), { check_and_reset_counters now s with
          requests_used := (check_and_reset_counters now s).requests_used + 1 })) ∧
    ((check_and_reset_counters now s).tokens_used + count > TPM →
      check_token_rate_limit TPM now count s =
        (false, check_and_reset_counters now s)) ∧
    ((check_and_reset_counters now s).tokens_used + count ≤ TPM →
      check_token_rate_limit TPM now count s =
        (true, { check_and_reset_counters now s with
          tokens_used := (check_and_reset_counters now s).tokens_used + count })) := by
  refine ⟨?_, ?_, ?_, ?_⟩ <;> intro h
  · simp only [track_request]
    rw [if_pos h]
  · simp only [track_request]
    rw [if_neg (Nat.not_le.mpr h)]
  · simp only [check_token_rate_limit]
    rw [if_pos h]
  · simp only [check_token_rate_limit]
    rw [if_neg (Nat.not_lt.mpr h)]

/-- Witness for C4, exercising all four branches at concrete states inside an
unexpired window (the reset check is the identity there). -/
theorem claim_C4_admission_semantics_witness :
    (track_request 2 0 { last_reset := 0, tokens_used := 0, requests_used := 2 } =
      (Except.error ⟨"Request", 2⟩,
        { last_reset := 0, tokens_used := 0, requests_used := 2 })) ∧
    (track_request 2 0 { last_reset := 0, tokens_used := 0, requests_used := 1 } =
      (Except.ok (), { last_reset := 0, tokens_used := 0, requests_used := 2 })) ∧
    (check_token_rate_limit 10 0 3 { last_reset := 0, tokens_used := 8, requests_used := 0 } =
      (false, { last_reset := 0, tokens_used := 8, requests_used := 0 })) ∧
    (check_token_rate_limit 10 0 2 { last_reset := 0, tokens_used := 8, requests_used := 0 } =
      (true, { last_reset := 0, tokens_used := 10, requests_used := 0 })) := by
  have h1 := (claim_C4_admission_semantics 2 10 3 0
    { last_reset := 0, tokens_used := 0, requests_used := 2 }).1
  have h2 := (claim_C4_admission_semantics 2 10 3 0
    { last_reset := 0, tokens_used := 0, requests_used := 1 }).2.1
  have h3 := (claim_C4_admission_semantics 2 10 3 0
    { last_reset := 0, tokens_used := 8, requests_used := 0 }).2.2.1
  have h4 := (claim_C4_admission_semantics 2 10 2 0
    { last_reset := 0, tokens_used := 8, requests_used := 0 }).2.2.2
  exact ⟨by simpa [check_and_reset_counters] using h1 (by decide),
         by simpa [check_and_reset_counters] using h2 (by decide),
         by simpa [check_and_reset_counters] using h3 (by decide),
         by simpa [check_and_reset_counters] using h4 (by decide)⟩

/-- C8: an operation that observes `now - windowStart > 60` first replaces
the window with a fresh one (`windowStart = now`, both counters zero) before
reading or mutating it; consequently the state after such a boundary call —
and after any further calls — is independent of the pre-boundary state, so
the counters reflect only calls made after the most recent reset. -/
theorem claim_C8_window_reset_monotonicity
    (RPM TPM : Nat) (now : Int) (op : ThrottleOp) (s₁ s₂ : UsageTracking)
    (ops : List (Int × ThrottleOp))
    (h₁ : now - s₁.last_reset > 60) (h₂ : now - s₂.last_reset > 60) :
    check_and_reset_counters now s₁ =
      { last_reset := now, tokens_used := 0, requests_used := 0 } ∧
    throttle_run RPM TPM (throttle_step RPM TPM now op s₁) ops =
      throttle_run RPM TPM (throttle_step RPM TPM now op s₂) ops := by
  refine ⟨check_and_reset_expired now s₁ h₁, ?_⟩
  have hstep : throttle_step RPM TPM now op s₁ = throttle_step RPM TPM now op s₂ :=
    throttle_step_congr RPM TPM now op s₁ s₂
      (by rw [check_and_reset_expired now s₁ h₁, check_and_reset_expired now s₂ h₂])
  rw [hstep]

/-- Witness for C8: two very different stale states at a boundary call at
time 100, followed by one more request. -/
theorem claim_C8_window_reset_monotonicity_witness :
    (check_and_reset_counters 100 { last_reset := 0, tokens_used := 5, requests_used := 3 } =
      { last_reset := 100, tokens_used := 0, requests_used := 0 }) ∧
    throttle_run 60 60000
      (throttle_step 60 60000 100 (.admitTokens 1)
        { last_reset := 0, tokens_used := 5, requests_used := 3 })
      [(101, .admitRequest)] =
    throttle_run 60 60000
      (throttle_step 60 60000 100 (.admitTokens 1)
        { last_reset := 10, tokens_used := 7, requests_used := 2 })
      [(101, .admitRequest)] :=
  claim_C8_window_reset_monotonicity 60 60000 100 (.admitTokens 1)
    { last_reset := 0, tokens_used := 5, requests_used := 3 }
    { last_reset := 10, tokens_used := 7, requests_used := 2 }
    [(101, .admitRequest)] (by decide) (by decide)

/-- A run of the chunk loop that exhausts its chunks without truncation
forwards every nonempty chunk text as a content event, in order, and leaves
the accumulator extended by the concatenation of all chunk texts. -/
theorem stream_loop_no_truncation (tokenize : String → Nat) (TPM : Nat) :
    ∀ (chunks : List (Int × String)) (acc : String) (u : UsageTracking),
    (stream_loop tokenize TPM chunks acc u).2.2.2 = false →
    (stream_loop tokenize TPM chunks acc u).1 =
      ((chunks.map Prod.snd).filter (fun x => !(x == ""))).map SSEEvent.content ∧
    (stream_loop tokenize TPM chunks acc u).2.1 =
      acc ++ concat_texts (chunks.map Prod.snd) := by
  intro chunks
  induction chunks with
  | nil =>
    intro acc u h
    simp [stream_loop, concat_texts]
  | cons hd tl ih =>
    intro acc u h
    obtain ⟨t, text⟩ := hd
    by_cases he : text = ""
    · subst he
      simp only [stream_loop, if_pos rfl] at h ⊢
      have := ih acc u h
      simpa [concat_texts] using this
    · by_cases hadm : (check_token_rate_limit TPM t (tokenize text) u).1 = true
      · have hu : (stream_loop tokenize TPM ((t, text) :: tl) acc u) =
            (SSEEvent.content text ::
              (stream_loop tokenize TPM tl (acc ++ text)
                (check_token_rate_limit TPM t (tokenize text) u).2).1,
             (stream_loop tokenize TPM tl (acc ++ text)
                (check_token_rate_limit TPM t (tokenize text) u).2).2) := by
          simp only [stream_loop, if_neg he, if_pos hadm]
        rw [hu] at h ⊢
        have hres := ih (acc ++ text)
          (check_token_rate_limit TPM t (tokenize text) u).2 h
        refine ⟨?_, ?_⟩
        · simp [hres.1, he]
        · simp only [List.map_cons, concat_texts]
          rw [hres.2, String.append_assoc]
      · exfalso
        have hu : (stream_loop tokenize TPM ((t, text) :: tl) acc u).2.2.2 = true := by
          simp only [stream_loop, if_neg he, if_neg hadm]
        rw [hu] at h
        simp at h

/-- A run of the chunk loop that truncates decomposes the chunk list around
the rejected fragment: its events are the nonempty texts strictly before the
rejected fragment, forwarded in order, followed by exactly the truncation
notice and the terminal sentinel; neither the rejected fragment (a real,
nonempty fragment) nor anything after it is forwarded. -/
theorem stream_loop_truncated (tokenize : String → Nat) (TPM : Nat) :
    ∀ (chunks : List (Int × String)) (acc : String) (u : UsageTracking),
    (stream_loop tokenize TPM chunks acc u).2.2.2 = true →
    ∃ pre t post,
      chunks = pre ++ t :: post ∧ t.2 ≠ "" ∧
      (stream_loop tokenize TPM chunks acc u).1 =
        ((pre.map Prod.snd).filter (fun x => !(x == ""))).map SSEEvent.content ++
          [SSEEvent.content truncation_notice, SSEEvent.done] := by
  intro chunks
  induction chunks with
  | nil =>
    intro acc u h
    exact absurd h (by simp [stream_loop])
  | cons hd tl ih =>
    intro acc u h
    obtain ⟨t, text⟩ := hd
    by_cases he : text = ""
    · subst he
      simp only [stream_loop, if_pos rfl] at h ⊢
      obtain ⟨pre, tt, post, h1, h2, h3⟩ := ih acc u h
      exact ⟨(t, "") :: pre, tt, post, by simp [h1], h2, by simp [h3]⟩
    · by_cases hadm : (check_token_rate_limit TPM t (tokenize text) u).1 = true
      · have hu : (stream_loop tokenize TPM ((t, text) :: tl) acc u) =
            (SSEEvent.content text ::
              (stream_loop tokenize TPM tl (acc ++ text)
                (check_token_rate_limit TPM t (tokenize text) u).2).1,
             (stream_loop tokenize TPM tl (acc ++ text)
                (check_token_rate_limit TPM t (tokenize text) u).2).2) := by
          simp only [stream_loop, if_neg he, if_pos hadm]
        rw [hu] at h ⊢
        obtain ⟨pre, tt, post, h1, h2, h3⟩ := ih (acc ++ text)
          (check_token_rate_limit TPM t (tokenize text) u).2 h
        refine ⟨(t, text) :: pre, tt, post, by simp [h1], h2, ?_⟩
        simp [h3, he]
      · have hu : (stream_loop tokenize TPM ((t, text) :: tl) acc u) =
            ([SSEEvent.content truncation_notice, SSEEvent.done], acc ++ text,
             (check_token_rate_limit TPM t (tokenize text) u).2, true) := by
          simp only [stream_loop, if_neg he, if_neg hadm]
        exact ⟨[], (t, text), tl, rfl, he, by simp [hu]⟩

/-- The declared `token_count` of the assistant message equals the tokenizer
output on its content, whether or not Python's falsy-`or` recomputes it. -/
theorem effective_token_count_self (tokenize : String → Nat) (c : String)
    (m : Option String) :
    effective_token_count tokenize ⟨c, m, some (tokenize c)⟩ = tokenize c := by
  unfold effective_token_count
  split <;> simp_all

/-- C1 counterexample: a concrete truncated stream (token limit 5, tokenizer
`len`, fragments "aaaaa" then "bbb") forwards "aaaaa", then truncates — and
the database comes back unchanged: no model-role turn holding the forwarded
text is persisted, contrary to the claim. -/
theorem claim_C1_counterexample :
    (stream_response String.length 5
        (.yields [(0, "aaaaa"), (1, "bbb")]) 1 "gemini-2.0-flash"
        ⟨[⟨1, 7, 0⟩], [⟨1, "user", "q", none, 1⟩]⟩ ⟨0, 0, 0⟩ 2).1 =
      [SSEEvent.content "aaaaa", SSEEvent.content truncation_notice,
       SSEEvent.done] ∧
    (stream_response String.length 5
        (.yields [(0, "aaaaa"), (1, "bbb")]) 1 "gemini-2.0-flash"
        ⟨[⟨1, 7, 0⟩], [⟨1, "user", "q", none, 1⟩]⟩ ⟨0, 0, 0⟩ 2).2.1 =
      ⟨[⟨1, 7, 0⟩], [⟨1, "user", "q", none, 1⟩]⟩ ∧
    ¬ ∃ c ∈ (stream_response String.length 5
        (.yields [(0, "aaaaa"), (1, "bbb")]) 1 "gemini-2.0-flash"
        ⟨[⟨1, 7, 0⟩], [⟨1, "user", "q", none, 1⟩]⟩ ⟨0, 0, 0⟩ 2).2.1.conversations,
      c.role = "model" := by
  decide

/-- C1 amended: when a fragment's token admission fails, the stream emits
the truncation notice and the end-of-stream sentinel after the fragments
already forwarded and the generator returns at once — persisting nothing:
the database is unchanged, so no model-role turn records the forwarded
text. -/
theorem claim_C1_amended_truncation_persists_nothing
    (tokenize : String → Nat) (TPM : Nat) (chunks : List (Int × String))
    (tid : Nat) (model : String) (db : DB) (u : UsageTracking) (pt : Int)
    (h : (stream_loop tokenize TPM chunks "" u).2.2.2 = true) :
    (stream_response tokenize TPM (.yields chunks) tid model db u pt).2.1 = db ∧
    ∃ pre,
      (stream_response tokenize TPM (.yields chunks) tid model db u pt).1 =
        pre ++ [SSEEvent.content truncation_notice, SSEEvent.done] := by
  obtain ⟨pre, tt, post, h1, h2, h3⟩ := stream_loop_truncated tokenize TPM chunks "" u h
  constructor
  · simp only [stream_response, h, if_pos]
  · refine ⟨((pre.map Prod.snd).filter (fun x => !(x == ""))).map SSEEvent.content, ?_⟩
    simp only [stream_response, h, if_pos]
    exact h3

/-- Witness for the amended C1 at the concrete truncated stream. -/
theorem claim_C1_amended_witness :
    ((stream_loop String.length 5 [(0, "aaaaa"), (1, "bbb")] ""
        ⟨0, 0, 0⟩).2.2.2 = true) ∧
    ((stream_response String.length 5 (.yields [(0, "aaaaa"), (1, "bbb")]) 1
        "gemini-2.0-flash" ⟨[⟨1, 7, 0⟩], []⟩ ⟨0, 0, 0⟩ 2).2.1 =
      ⟨[⟨1, 7, 0⟩], []⟩ ∧
     ∃ pre,
      (stream_response String.length 5 (.yields [(0, "aaaaa"), (1, "bbb")]) 1
        "gemini-2.0-flash" ⟨[⟨1, 7, 0⟩], []⟩ ⟨0, 0, 0⟩ 2).1 =
        pre ++ [SSEEvent.content truncation_notice, SSEEvent.done]) :=
  ⟨by decide,
   claim_C1_amended_truncation_persists_nothing String.length 5
     [(0, "aaaaa"), (1, "bbb")] 1 "gemini-2.0-flash" ⟨[⟨1, 7, 0⟩], []⟩
     ⟨0, 0, 0⟩ 2 (by decide)⟩

/-- C5: a stream consumed to exhaustion with no truncation (and no
exception) persists exactly one new turn, a model-role turn whose content is
the concatenation of all fragments in arrival order, whose `token_count` is
the tokenizer applied to that content, and whose `model` is the requested
model id. -/
theorem claim_C5_exactly_once_persistence
    (tokenize : String → Nat) (TPM : Nat) (chunks : List (Int × String))
    (tid : Nat) (model : String) (db : DB) (u : UsageTracking) (pt : Int)
    (th : Thread)
    (hnt : (stream_loop tokenize TPM chunks "" u).2.2.2 = false)
    (hth : get_thread db tid = some th) :
    (stream_response tokenize TPM (.yields chunks) tid model db u pt).2.1.conversations =
      db.conversations ++
        [⟨tid, "model", concat_texts (chunks.map Prod.snd), some model,
          tokenize (concat_texts (chunks.map Prod.snd))⟩] := by
  have hacc := (stream_loop_no_truncation tokenize TPM chunks "" u hnt).2
  rw [String.empty_append] at hacc
  simp only [stream_response, hnt, Bool.false_eq_true, if_false]
  simp only [add_messages_to_thread, hth, hacc, effective_token_count_self]

/-- Witness for C5 on the spec's own example: fragments
`["Hel", "lo", " world"]` yield exactly one model turn with content
`"Hello world"`. -/
theorem claim_C5_exactly_once_persistence_witness :
    ((stream_loop String.length 60000 [(0, "Hel"), (0, "lo"), (0, " world")] ""
        ⟨0, 0, 0⟩).2.2.2 = false) ∧
    (get_thread ⟨[⟨1, 7, 0⟩], []⟩ 1 = some ⟨1, 7, 0⟩) ∧
    (stream_response String.length 60000
        (.yields [(0, "Hel"), (0, "lo"), (0, " world")]) 1 "gemini-2.0-flash"
        ⟨[⟨1, 7, 0⟩], []⟩ ⟨0, 0, 0⟩ 2).2.1.conversations =
      [⟨1, "model",
        concat_texts ([(0, "Hel"), (0, "lo"), (0, " world")].map Prod.snd),
        some "gemini-2.0-flash",
        String.length
          (concat_texts ([(0, "Hel"), (0, "lo"), (0, " world")].map Prod.snd))⟩] :=
  ⟨by decide, by decide,
   claim_C5_exactly_once_persistence String.length 60000
     [(0, "Hel"), (0, "lo"), (0, " world")] 1 "gemini-2.0-flash"
     ⟨[⟨1, 7, 0⟩], []⟩ ⟨0, 0, 0⟩ 2 ⟨1, 7, 0⟩ (by decide) (by decide)⟩

/-- C6: once a fragment's token admission fails, that fragment is not
forwarded and no later fragment is forwarded: the chunk list splits around
the rejected (nonempty) fragment, and the whole event stream is the content
events of the nonempty fragments strictly before it followed by exactly the
truncation notice and the terminal sentinel. -/
theorem claim_C6_truncation_stops_forwarding
    (tokenize : String → Nat) (TPM : Nat) (chunks : List (Int × String))
    (tid : Nat) (model : String) (db : DB) (u : UsageTracking) (pt : Int)
    (h : (stream_loop tokenize TPM chunks "" u).2.2.2 = true) :
    ∃ pre t post,
      chunks = pre ++ t :: post ∧ t.2 ≠ "" ∧
      (stream_response tokenize TPM (.yields chunks) tid model db u pt).1 =
        ((pre.map Prod.snd).filter (fun x => !(x == ""))).map SSEEvent.content ++
          [SSEEvent.content truncation_notice, SSEEvent.done] := by
  obtain ⟨pre, tt, post, h1, h2, h3⟩ := stream_loop_truncated tokenize TPM chunks "" u h
  refine ⟨pre, tt, post, h1, h2, ?_⟩
  simp only [stream_response, h, if_pos]
  exact h3

/-- Witness for C6 on the spec's own example: token limit 5, tokenizer
`len`, fragments `["aaaaa", "bbbbb"]` — the second fragment is never
forwarded; the stream is the first fragment, the truncation notice, then the
sentinel. -/
theorem claim_C6_truncation_stops_forwarding_witness :
    ((stream_loop String.length 5 [(0, "aaaaa"), (1, "bbbbb")] ""
        ⟨0, 0, 0⟩).2.2.2 = true) ∧
    ∃ pre t post,
      ([(0, "aaaaa"), (1, "bbbbb")] : List (Int × String)) = pre ++ t :: post ∧
      t.2 ≠ "" ∧
      (stream_response String.length 5 (.yields [(0, "aaaaa"), (1, "bbbbb")]) 1
          "gemini-2.0-flash" ⟨[⟨1, 7, 0⟩], []⟩ ⟨0, 0, 0⟩ 2).1 =
        ((pre.map Prod.snd).filter (fun x => !(x == ""))).map SSEEvent.content ++
          [SSEEvent.content truncation_notice, SSEEvent.done] :=
  ⟨by decide,
   claim_C6_truncation_stops_forwarding String.length 5
     [(0, "aaaaa"), (1, "bbbbb")] 1 "gemini-2.0-flash" ⟨[⟨1, 7, 0⟩], []⟩
     ⟨0, 0, 0⟩ 2 (by decide)⟩

/-- The wire frame of a content event differs from the terminal marker's
frame: the JSON object opens with a brace where the marker has the bracket
of `[DONE]`. -/
theorem sse_frame_content_ne_done (text : String) :
    sse_frame (SSEEvent.content text) ≠ sse_frame SSEEvent.done := by
  intro h
  have hd := congrArg String.data h
  simp only [sse_frame, json_dumps_content, String.data_append] at hd
  have h6 : (some '{' : Option Char) = some '[' :=
    congrArg (fun l => l.get? 6) hd
  exact absurd h6 (by decide)

/-- Any list of events ending in some event followed by the sentinel has the
sentinel as its last element. -/
theorem getLast_append_pair_done (l : List SSEEvent) (a : SSEEvent) :
    (l ++ [a, SSEEvent.done]).getLast? = some SSEEvent.done := by
  rw [show [a, SSEEvent.done] = [a] ++ [SSEEvent.done] from rfl,
    ← List.append_assoc]
  exact List.getLast?_concat _

/-- C7: every stream — completed, truncated, or failed — has the fixed
terminal sentinel as its last event; the sentinel's wire frame differs from
the frame of every content event; and when the external call raises before
or during iteration (and the raise is actually reached, i.e. no truncation
pre-empted further pulls), exactly one error-content fragment is emitted
after the forwarded fragments, followed by the sentinel, and no model-role
turn is persisted: the database is unchanged. -/
theorem claim_C7_sentinel_last_and_failure_path
    (tokenize : String → Nat) (TPM : Nat) (source : StreamSource)
    (tid : Nat) (model : String) (db : DB) (u : UsageTracking) (pt : Int) :
    ((stream_response tokenize TPM source tid model db u pt).1.getLast? =
      some SSEEvent.done) ∧
    (∀ text, sse_frame (SSEEvent.content text) ≠ sse_frame SSEEvent.done) ∧
    (∀ chunks msg, source = .raises chunks msg →
      (stream_loop tokenize TPM chunks "" u).2.2.2 = false →
      (stream_response tokenize TPM source tid model db u pt).1 =
        ((chunks.map Prod.snd).filter (fun x => !(x == ""))).map SSEEvent.content ++
          [SSEEvent.content (error_content msg), SSEEvent.done] ∧
      (stream_response tokenize TPM source tid model db u pt).2.1 = db) := by
  refine ⟨?_, sse_frame_content_ne_done, ?_⟩
  · cases source with
    | yields chunks =>
      by_cases hfl : (stream_loop tokenize TPM chunks "" u).2.2.2 = true
      · obtain ⟨pre, tt, post, h1, h2, h3⟩ :=
          stream_loop_truncated tokenize TPM chunks "" u hfl
        simp only [stream_response, hfl, if_pos]
        rw [h3]
        exact getLast_append_pair_done _ _
      · rw [Bool.not_eq_true] at hfl
        simp only [stream_response, hfl, Bool.false_eq_true, if_false]
        exact List.getLast?_concat _
    | raises chunks msg =>
      by_cases hfl : (stream_loop tokenize TPM chunks "" u).2.2.2 = true
      · obtain ⟨pre, tt, post, h1, h2, h3⟩ :=
          stream_loop_truncated tokenize TPM chunks "" u hfl
        simp only [stream_response, hfl, if_pos]
        rw [h3]
        exact getLast_append_pair_done _ _
      · rw [Bool.not_eq_true] at hfl
        simp only [stream_response, hfl, Bool.false_eq_true, if_false]
        exact getLast_append_pair_done _ _
  · intro chunks msg hsrc hnot
    subst hsrc
    have hev := (stream_loop_no_truncation tokenize TPM chunks "" u hnot).1
    constructor
    · simp only [stream_response, hnot, Bool.false_eq_true, if_false]
      rw [hev]
    · simp only [stream_response, hnot, Bool.false_eq_true, if_false]

/-- Witness for C7: a source that yields "hi" and then raises "boom"
produces the forwarded fragment, one error fragment, then the sentinel, with
the database untouched. -/
theorem claim_C7_witness :
    ((stream_response String.length 5 (.raises [(0, "hi")] "boom") 1 "m"
        ⟨[⟨1, 7, 0⟩], []⟩ ⟨0, 0, 0⟩ 2).1.getLast? = some SSEEvent.done) ∧
    (sse_frame (SSEEvent.content "hi") ≠ sse_frame SSEEvent.done) ∧
    ((stream_response String.length 5 (.raises [(0, "hi")] "boom") 1 "m"
        ⟨[⟨1, 7, 0⟩], []⟩ ⟨0, 0, 0⟩ 2).1 =
      [SSEEvent.content "hi", SSEEvent.content (error_content "boom"),
       SSEEvent.done]) ∧
    ((stream_response String.length 5 (.raises [(0, "hi")] "boom") 1 "m"
        ⟨[⟨1, 7, 0⟩], []⟩ ⟨0, 0, 0⟩ 2).2.1 = ⟨[⟨1, 7, 0⟩], []⟩) := by
  have h := claim_C7_sentinel_last_and_failure_path String.length 5
    (.raises [(0, "hi")] "boom") 1 "m" ⟨[⟨1, 7, 0⟩], []⟩ ⟨0, 0, 0⟩ 2
  have h3 := h.2.2 [(0, "hi")] "boom" rfl (by decide)
  exact ⟨h.1, h.2.1 "hi", h3.1.trans (by decide), h3.2⟩

/-- C2 counterexample: a chat request for a thread id absent from the
database is not rejected — the route returns a streaming response and issues
the model call anyway, rather than surfacing a NotFound failure before any
streaming work begins (and no ownership check exists at all in the
route). -/
theorem claim_C2_counterexample :
    get_thread ⟨[], []⟩ 1 = none ∧
    (chat_with_thread String.length ⟨[], []⟩ 1 "q" "m" false 0).1 =
      RouteOutcome.streaming ∧
    (chat_with_thread String.length ⟨[], []⟩ 1 "q" "m" false 0).2.2 =
      [RouteEvent.historyFetched [], RouteEvent.userTurnPersist false,
       RouteEvent.modelCallIssued "m" [] "q"] := by
  decide

/-- C2 amended: the route never surfaces NotFound or Forbidden — it performs
no existence or ownership check of its own — and for a nonexistent thread it
still returns a streaming response and issues the model call; the only
remnant of the claim that holds is the absence of partial persistence: the
user-turn insert silently no-ops, leaving the database unchanged. -/
theorem claim_C2_amended_no_rejection_no_rows
    (tokenize : String → Nat) (db : DB) (tid : Nat) (question model : String)
    (hfr : Bool) (now : Int)
    (h : get_thread db tid = none) :
    (chat_with_thread tokenize db tid question model hfr now).1 =
      RouteOutcome.streaming ∧
    (chat_with_thread tokenize db tid question model hfr now).2.1 = db ∧
    ∃ hist, (chat_with_thread tokenize db tid question model hfr now).2.2.get? 2 =
      some (RouteEvent.modelCallIssued model hist question) := by
  have hadd : add_messages_to_thread tokenize db tid
      (some ⟨question, none, some (tokenize question)⟩) none now = (false, db) := by
    simp only [add_messages_to_thread, h]
  cases hfr with
  | false =>
    refine ⟨rfl, ?_, get_thread_messages_optimized db tid, ?_⟩
    · simp [chat_with_thread, hadd]
    · simp [chat_with_thread]
  | true =>
    refine ⟨rfl, ?_, [], ?_⟩
    · simp [chat_with_thread, hadd]
    · simp [chat_with_thread]

/-- Witness for the amended C2 on the empty database. -/
theorem claim_C2_amended_witness :
    get_thread ⟨[], []⟩ 1 = none ∧
    ((chat_with_thread String.length ⟨[], []⟩ 1 "q" "m" true 0).1 =
      RouteOutcome.streaming ∧
    (chat_with_thread String.length ⟨[], []⟩ 1 "q" "m" true 0).2.1 = ⟨[], []⟩ ∧
    ∃ hist, (chat_with_thread String.length ⟨[], []⟩ 1 "q" "m" true 0).2.2.get? 2 =
      some (RouteEvent.modelCallIssued "m" hist "q")) :=
  ⟨by decide,
   claim_C2_amended_no_rejection_no_rows String.length ⟨[], []⟩ 1 "q" "m" true 0
     (by decide)⟩

/-- C9: when the referenced thread exists, the user-role turn — content as
received, token count from the tokenizer — is persisted by the route, and in
the route's program order that persistence step strictly precedes the
issuing of the streaming model call. -/
theorem claim_C9_user_turn_persisted_before_model_call
    (tokenize : String → Nat) (db : DB) (tid : Nat) (question model : String)
    (hfr : Bool) (now : Int) (th : Thread)
    (h : get_thread db tid = some th) :
    (chat_with_thread tokenize db tid question model hfr now).2.1.conversations =
      db.conversations ++ [⟨tid, "user", question, none, tokenize question⟩] ∧
    ∃ i j hist, i < j ∧
      (chat_with_thread tokenize db tid question model hfr now).2.2.get? i =
        some (RouteEvent.userTurnPersist true) ∧
      (chat_with_thread tokenize db tid question model hfr now).2.2.get? j =
        some (RouteEvent.modelCallIssued model hist question) := by
  have hadd : add_messages_to_thread tokenize db tid
      (some ⟨question, none, some (tokenize question)⟩) none now =
      (true,
       ⟨db.threads.map fun t => if t.id == tid then { t with updated_at := now } else t,
        db.conversations ++ [⟨tid, "user", question, none, tokenize question⟩]⟩) := by
    simp only [add_messages_to_thread, h, effective_token_count_self]
  cases hfr with
  | false =>
    refine ⟨?_, 1, 2, get_thread_messages_optimized db tid, by omega, ?_, ?_⟩
    · simp [chat_with_thread, hadd]
    · simp [chat_with_thread, hadd]
    · simp [chat_with_thread]
  | true =>
    refine ⟨?_, 1, 2, [], by omega, ?_, ?_⟩
    · simp [chat_with_thread, hadd]
    · simp [chat_with_thread, hadd]
    · simp [chat_with_thread]

/-- Witness for C9 on a one-thread database. -/
theorem claim_C9_witness :
    get_thread ⟨[⟨1, 7, 0⟩], []⟩ 1 = some ⟨1, 7, 0⟩ ∧
    ((chat_with_thread String.length ⟨[⟨1, 7, 0⟩], []⟩ 1 "hi" "m" false 0).2.1.conversations =
      [⟨1, "user", "hi", none, String.length "hi"⟩] ∧
    ∃ i j hist, i < j ∧
      (chat_with_thread String.length ⟨[⟨1, 7, 0⟩], []⟩ 1 "hi" "m" false 0).2.2.get? i =
        some (RouteEvent.userTurnPersist true) ∧
      (chat_with_thread String.length ⟨[⟨1, 7, 0⟩], []⟩ 1 "hi" "m" false 0).2.2.get? j =
        some (RouteEvent.modelCallIssued "m" hist "hi")) :=
  ⟨by decide,
   claim_C9_user_turn_persisted_before_model_call String.length
     ⟨[⟨1, 7, 0⟩], []⟩ 1 "hi" "m" false 0 ⟨1, 7, 0⟩ (by decide)⟩

/-- C10 (implicit): if retrieving the thread's existing messages raises, the
exception is swallowed — the route still returns a streaming response and
the model call is issued with an empty history rather than the request
failing. -/
theorem claim_C10_history_fetch_failure_swallowed
    (tokenize : String → Nat) (db : DB) (tid : Nat) (question model : String)
    (now : Int) :
    (chat_with_thread tokenize db tid question model true now).1 =
      RouteOutcome.streaming ∧
    ∃ b, (chat_with_thread tokenize db tid question model true now).2.2 =
      [RouteEvent.historyFetchFailed, RouteEvent.userTurnPersist b,
       RouteEvent.modelCallIssued model [] question] := by
  refine ⟨rfl, (add_messages_to_thread tokenize db tid
    (some ⟨question, none, some (tokenize question)⟩) none now).1, ?_⟩
  simp [chat_with_thread]

end GChat




